import Mathlib

set_option maxRecDepth 16384

/-!
Verification development for the player-prop betting simulator
(`src/streamlit_app.py`).

The computational pipeline of the script (lines 98-152) is shallowly
embedded here.  Python floats are modelled as real numbers; numpy's
`np.random.normal(mu, sigma, n)` is modelled by an explicit entropy
stream `entropy : ℕ → ℝ` of standard-normal draws, the i-th returned
sample being `mu + sigma * entropy i`; numpy raises a `ValueError`
("scale < 0") when the scale argument is negative, modelled by the
`NumpyError.scaleNegative` outcome.  The module-level variable
`games_played` that `bayesian_update` reads is passed as an explicit
`Option ℝ` argument (Python `None` is `none`).
-/

/-- The error numpy's legacy normal sampler raises when its scale
argument is negative.  (This is the only failure path of any of the
embedded computational functions.) -/
inductive NumpyError where
  | scaleNegative
deriving DecidableEq

/-- Embeds `bayesian_update` (streamlit_app.py lines 98-103).  The Python
function reads the module-level `games_played` (an `int` or `None`);
here it is the explicit argument `games_played`.  `recent_games` is a
nonnegative integer per the input model. -/
noncomputable def bayesian_update (prior_mu prior_sigma recent_mu : ℝ)
    (recent_games : ℕ) (games_played : Option ℝ) : ℝ × ℝ :=
  if games_played = none ∨ games_played = some 0 then
    (prior_mu, prior_sigma)
  else
    let posterior_mu := (prior_mu / prior_sigma ^ 2 +
        (recent_games : ℝ) * recent_mu / prior_sigma ^ 2) /
      (1 / prior_sigma ^ 2 + (recent_games : ℝ) / prior_sigma ^ 2)
    let posterior_sigma := Real.sqrt (1 /
      (1 / prior_sigma ^ 2 + (recent_games : ℝ) / prior_sigma ^ 2))
    (posterior_mu, posterior_sigma)

/-- Embeds `monte_carlo_simulation` (lines 105-106), i.e. the single call
`np.random.normal(mu, sigma, sims)`: with `sigma < 0` numpy raises, and
otherwise the i-th draw is `mu + sigma * entropy i` where `entropy` is
the stream of standard-normal variates supplied by the RNG.  Note the
source performs no validation of its own. -/
noncomputable def monte_carlo_simulation (mu sigma : ℝ) (sims : ℕ)
    (entropy : ℕ → ℝ) : Except NumpyError (List ℝ) :=
  if sigma < 0 then .error .scaleNegative
  else .ok ((List.range sims).map fun i => mu + sigma * entropy i)

/-- Embeds the odds-conversion step of `calculate_ev` (line 109):
`1 + (100 / abs(odds)) if odds < 0 else (odds / 100) + 1`. -/
noncomputable def odds_decimal (odds : ℝ) : ℝ :=
  if odds < 0 then 1 + 100 / |odds| else odds / 100 + 1

/-- Embeds `calculate_ev` (lines 108-110). -/
noncomputable def calculate_ev (prob_over odds : ℝ) : ℝ :=
  prob_over * odds_decimal odds - (1 - prob_over)

/-- Embeds `apply_floor_adjustment` (lines 112-115); the second component
is the `floor_triggered` boolean. -/
noncomputable def apply_floor_adjustment
    (projected_points opp_points_allowed floor_percentage : ℝ) : ℝ × Prop :=
  let floor_value := opp_points_allowed * (floor_percentage / 100)
  (max projected_points floor_value, projected_points < floor_value)

/-- Embeds `calculate_projected_points` (lines 117-122). -/
noncomputable def calculate_projected_points
    (mean_points recent_avg_points opp_points_allowed
     projected_minutes avg_minutes : ℝ) : ℝ :=
  let weighted_avg := 0.6 * mean_points + 0.4 * recent_avg_points
  let opponent_adjustment := (opp_points_allowed - mean_points) * 0.25
  let minutes_adjustment :=
    if 0 < avg_minutes then projected_minutes / avg_minutes else 1
  (weighted_avg + opponent_adjustment) * minutes_adjustment

/-- Embeds `get_bet_recommendation` (lines 124-138), returning the exact
strings of the source. -/
noncomputable def get_bet_recommendation (edge_pct : ℝ) : String :=
  if edge_pct ≥ 50 then "Very Strong Over Bet"
  else if edge_pct ≥ 31 then "Strong Over Bet"
  else if edge_pct ≥ 10 then "Good Over Bet"
  else if edge_pct ≤ -50 then "Very Strong Under Bet"
  else if edge_pct ≤ -31 then "Strong Under Bet"
  else if edge_pct ≤ -10 then "Good Under Bet"
  else "No Strong Bet Recommendation"

/-- Embeds line 149, `prob_over_line = np.mean(simulated_points > line)`:
the fraction of samples strictly above the line. -/
noncomputable def prob_over_line (samples : List ℝ) (line : ℝ) : ℝ :=
  ((samples.countP fun x => decide (line < x)) : ℝ) / (samples.length : ℝ)

/-- Embeds line 151, `edge_percentage = (prob_over_line * 100) - 50`. -/
def edge_percentage (prob_over : ℝ) : ℝ := prob_over * 100 - 50

/-- The per-run input record (sidebar inputs consumed by lines 141-152). -/
structure PlayerInputs where
  mean_points : ℝ
  std_dev_points : ℝ
  games_played : Option ℝ
  recent_avg_points : ℝ
  recent_games : ℕ
  opp_points_allowed_position : ℝ
  projected_minutes : ℝ
  avg_minutes : ℝ
  floor_percentage : ℝ
  line : ℝ
  odds : ℝ
  simulations : ℕ

/-- The quantities a pipeline run computes (lines 141-152). -/
structure PipelineResult where
  posterior_mu : ℝ
  posterior_sigma : ℝ
  projected_points : ℝ
  simulated_points : List ℝ
  final_points : ℝ
  floor_triggered : Prop
  prob_over : ℝ
  ev : ℝ
  edge_pct : ℝ
  bet_recommendation : String

/-- Embeds the top-level pipeline, lines 141-152 of the source, in the
order written there: posterior update, raw projection, Monte Carlo
sampling (note: with the raw projection as mean), floor adjustment,
probability, EV, edge, recommendation. -/
noncomputable def run_pipeline (inp : PlayerInputs) (entropy : ℕ → ℝ) :
    Except NumpyError PipelineResult :=
  let post := bayesian_update inp.mean_points inp.std_dev_points
    inp.recent_avg_points inp.recent_games inp.games_played
  let projected_points := calculate_projected_points inp.mean_points
    inp.recent_avg_points inp.opp_points_allowed_position
    inp.projected_minutes inp.avg_minutes
  match monte_carlo_simulation projected_points post.2 inp.simulations entropy with
  | .error e => .error e
  | .ok simulated_points =>
    let floored := apply_floor_adjustment projected_points
      inp.opp_points_allowed_position inp.floor_percentage
    let p := prob_over_line simulated_points inp.line
    let edge := edge_percentage p
    .ok {
      posterior_mu := post.1
      posterior_sigma := post.2
      projected_points := projected_points
      simulated_points := simulated_points
      final_points := floored.1
      floor_triggered := floored.2
      prob_over := p
      ev := calculate_ev p inp.odds
      edge_pct := edge
      bet_recommendation := get_bet_recommendation edge }

/-- Helper: when the posterior standard deviation is nonnegative the
pipeline succeeds, and each field of the result is the corresponding
source expression. -/
lemma run_pipeline_eq (inp : PlayerInputs) (entropy : ℕ → ℝ)
    (h : 0 ≤ (bayesian_update inp.mean_points inp.std_dev_points
      inp.recent_avg_points inp.recent_games inp.games_played).2) :
    run_pipeline inp entropy =
      let post := bayesian_update inp.mean_points inp.std_dev_points
        inp.recent_avg_points inp.recent_games inp.games_played
      let projected_points := calculate_projected_points inp.mean_points
        inp.recent_avg_points inp.opp_points_allowed_position
        inp.projected_minutes inp.avg_minutes
      let simulated_points :=
        (List.range inp.simulations).map fun i =>
          projected_points + post.2 * entropy i
      let floored := apply_floor_adjustment projected_points
        inp.opp_points_allowed_position inp.floor_percentage
      let p := prob_over_line simulated_points inp.line
      let edge := edge_percentage p
      .ok {
        posterior_mu := post.1
        posterior_sigma := post.2
        projected_points := projected_points
        simulated_points := simulated_points
        final_points := floored.1
        floor_triggered := floored.2
        prob_over := p
        ev := calculate_ev p inp.odds
        edge_pct := edge
        bet_recommendation := get_bet_recommendation edge } := by
  simp only [run_pipeline, monte_carlo_simulation]
  rw [if_neg (not_lt.mpr h)]

/-- C2 counterexample: at `odds = 0` the odds-conversion step of
`calculate_ev` does not fail; the `else` branch applies and it returns
the multiplier `0 / 100 + 1 = 1` (line 109 has no error path at all). -/
theorem C2_counterexample : odds_decimal 0 = 1 := by
  norm_num [odds_decimal]

/-- C2 amended: at `americanOdds = 0` the conversion returns the decimal
multiplier `1` (the nonnegative branch), and `calculate_ev` consequently
returns `2 * probOver - 1`; no `InvalidOdds` failure exists in the code. -/
theorem C2_amended :
    odds_decimal 0 = 1 ∧ ∀ p : ℝ, calculate_ev p 0 = 2 * p - 1 := by
  constructor
  · norm_num [odds_decimal]
  · intro p
    norm_num [calculate_ev, odds_decimal]
    ring

/-- C3 counterexample: with `recentGames = 5 > 0` and
`priorStdDev = 1 > 0` but `gamesPlayed = null`, `bayesian_update` returns
the prior standard deviation unchanged, so the posterior standard
deviation is not strictly less than the prior one. -/
theorem C3_counterexample : ¬ (bayesian_update 20 1 22 5 none).2 < 1 := by
  simp [bayesian_update]

/-- C3 amended: whenever `gamesPlayed` is non-null and nonzero (the gate
the code actually checks), `recentGames > 0` and `priorStdDev > 0`, the
posterior standard deviation is strictly less than the prior one. -/
theorem C3_amended (prior_mu prior_sigma recent_mu : ℝ) (n : ℕ) (g : ℝ)
    (hg : g ≠ 0) (hn : 0 < n) (hs : 0 < prior_sigma) :
    (bayesian_update prior_mu prior_sigma recent_mu n (some g)).2 < prior_sigma := by
  have hcond : ¬ ((some g : Option ℝ) = none ∨ (some g : Option ℝ) = some 0) := by
    simp [hg]
  rw [bayesian_update, if_neg hcond]
  have hs2 : (0:ℝ) < prior_sigma ^ 2 := by positivity
  have hkey : 1 / (1 / prior_sigma ^ 2 + (n : ℝ) / prior_sigma ^ 2)
      = prior_sigma ^ 2 / (1 + (n : ℝ)) := by
    have hn1 : (0:ℝ) < 1 + (n : ℝ) := by positivity
    field_simp
  show Real.sqrt _ < prior_sigma
  rw [hkey]
  apply (Real.sqrt_lt' hs).mpr
  have hn1 : (1:ℝ) < 1 + (n : ℝ) := by
    have h1n : (1:ℝ) ≤ (n : ℝ) := by exact_mod_cast hn
    linarith
  exact div_lt_self hs2 hn1

/-- C3 witness: concrete instance of the amended claim. -/
theorem C3_witness : (bayesian_update 20 1 22 5 (some 10)).2 < 1 :=
  C3_amended 20 1 22 5 10 (by norm_num) (by norm_num) (by norm_num)

/-- C5 counterexample: with a negative `opponentAllowed` the floored
value strictly decreases as `floorPercentage` rises from 0 to 100
(`max (-10) 0 = 0` versus `max (-10) (-100) = -10`), so the claimed
monotonicity over every `opponentAllowed` fails. -/
theorem C5_counterexample :
    (apply_floor_adjustment (-10) (-100) 100).1
      < (apply_floor_adjustment (-10) (-100) 0).1 := by
  norm_num [apply_floor_adjustment]

/-- C5 amended: for nonnegative `opponentAllowed` (and floor percentages
`0 ≤ p1 ≤ p2 ≤ 100`) the floored value is monotone in the floor
percentage. -/
theorem C5_amended (raw opp p1 p2 : ℝ) (hopp : 0 ≤ opp)
    (h0 : 0 ≤ p1) (h12 : p1 ≤ p2) (h100 : p2 ≤ 100) :
    (apply_floor_adjustment raw opp p1).1 ≤ (apply_floor_adjustment raw opp p2).1 := by
  have hfv : opp * (p1 / 100) ≤ opp * (p2 / 100) := by
    apply mul_le_mul_of_nonneg_left _ hopp
    linarith
  exact max_le_max le_rfl hfv

/-- C5 witness: concrete instance of the amended monotonicity. -/
theorem C5_witness :
    (apply_floor_adjustment 5 20 10).1 ≤ (apply_floor_adjustment 5 20 50).1 :=
  C5_amended 5 20 10 50 (by norm_num) (by norm_num) (by norm_num) (by norm_num)

/-- C6: for every non-empty sample sequence, the probability of going
over the line lies in `[0,1]`, the edge percentage equals
`probabilityOver * 100 - 50`, and hence the edge lies in `[-50,50]`. -/
theorem C6_prob_edge_bounds (samples : List ℝ) (line : ℝ) (h : samples ≠ []) :
    0 ≤ prob_over_line samples line ∧ prob_over_line samples line ≤ 1
    ∧ edge_percentage (prob_over_line samples line)
        = prob_over_line samples line * 100 - 50
    ∧ -50 ≤ edge_percentage (prob_over_line samples line)
    ∧ edge_percentage (prob_over_line samples line) ≤ 50 := by
  have hlen : 0 < samples.length := List.length_pos.mpr h
  have hlenR : (0:ℝ) < (samples.length : ℝ) := by exact_mod_cast hlen
  have hcount : samples.countP (fun x => decide (line < x)) ≤ samples.length :=
    List.countP_le_length _
  have h0 : 0 ≤ prob_over_line samples line := by
    unfold prob_over_line
    positivity
  have h1 : prob_over_line samples line ≤ 1 := by
    unfold prob_over_line
    rw [div_le_one hlenR]
    exact_mod_cast hcount
  refine ⟨h0, h1, rfl, ?_, ?_⟩ <;> unfold edge_percentage <;> nlinarith

/-- C6 witness: concrete instance on the two-sample list
`[0, 2]` with line `1`. -/
theorem C6_witness :
    0 ≤ prob_over_line [0, 2] 1 ∧ prob_over_line [0, 2] 1 ≤ 1
    ∧ edge_percentage (prob_over_line [0, 2] 1)
        = prob_over_line [0, 2] 1 * 100 - 50
    ∧ -50 ≤ edge_percentage (prob_over_line [0, 2] 1)
    ∧ edge_percentage (prob_over_line [0, 2] 1) ≤ 50 :=
  C6_prob_edge_bounds [0, 2] 1 (by simp)

/-- C7: the recommendation tiers are evaluated highest-magnitude first
with thresholds closed on the stated side: 50 is a Very Strong Over,
49.99 a Strong Over, 10 a Good Over, -10 a Good Under, 0 none, and every
edge strictly between -10 and 10 yields no recommendation. -/
theorem C7_recommendation_boundaries :
    get_bet_recommendation 50 = "Very Strong Over Bet"
    ∧ get_bet_recommendation 49.99 = "Strong Over Bet"
    ∧ get_bet_recommendation 10 = "Good Over Bet"
    ∧ get_bet_recommendation (-10) = "Good Under Bet"
    ∧ get_bet_recommendation 0 = "No Strong Bet Recommendation"
    ∧ ∀ e : ℝ, -10 < e → e < 10 →
        get_bet_recommendation e = "No Strong Bet Recommendation" := by
  refine ⟨by norm_num [get_bet_recommendation],
    by norm_num [get_bet_recommendation],
    by norm_num [get_bet_recommendation],
    by norm_num [get_bet_recommendation],
    by norm_num [get_bet_recommendation], ?_⟩
  intro e h1 h2
  have g1 : ¬ e ≥ 50 := by linarith
  have g2 : ¬ e ≥ 31 := by linarith
  have g3 : ¬ e ≥ 10 := by linarith
  have g4 : ¬ e ≤ -50 := by linarith
  have g5 : ¬ e ≤ -31 := by linarith
  have g6 : ¬ e ≤ -10 := by linarith
  simp [get_bet_recommendation, g1, g2, g3, g4, g5, g6]

/-- C7 witness: an interior edge value yields no recommendation. -/
theorem C7_witness : get_bet_recommendation 5 = "No Strong Bet Recommendation" :=
  C7_recommendation_boundaries.2.2.2.2.2 5 (by norm_num) (by norm_num)

/-- C8: whenever `gamesPlayed` is null or zero, or `recentGames = 0`
(with the prior standard deviation positive, as the input model
requires), `bayesian_update` returns exactly `(priorMean, priorStdDev)`. -/
theorem C8_no_update (prior_mu prior_sigma recent_mu : ℝ) (n : ℕ)
    (gp : Option ℝ) (hs : 0 < prior_sigma)
    (h : gp = none ∨ gp = some 0 ∨ n = 0) :
    bayesian_update prior_mu prior_sigma recent_mu n gp = (prior_mu, prior_sigma) := by
  rcases h with h | h | h
  · rw [bayesian_update, if_pos (Or.inl h)]
  · rw [bayesian_update, if_pos (Or.inr h)]
  · subst h
    by_cases hgate : gp = none ∨ gp = some 0
    · rw [bayesian_update, if_pos hgate]
    · have hs2 : prior_sigma ^ 2 ≠ 0 := by positivity
      simp only [bayesian_update, if_neg hgate, Nat.cast_zero, zero_mul,
        zero_div, add_zero, Prod.mk.injEq]
      constructor
      · field_simp
      · rw [one_div_one_div, Real.sqrt_sq hs.le]

/-- C8 witness: with `recentGames = 0` but `gamesPlayed = 5`, the update
returns the prior pair exactly. -/
theorem C8_witness : bayesian_update 20 1 22 0 (some 5) = (20, 1) :=
  C8_no_update 20 1 22 0 (some 5) (by norm_num) (Or.inr (Or.inr rfl))

/-- C9: the projection is total with no division by zero: whenever
`avgMinutes ≤ 0` (zero included) the minutes ratio falls back to `1`,
and in general the result is the weighted-average formula times the
guarded minutes ratio. -/
theorem C9_projection_total (m r o pm a : ℝ) :
    (a ≤ 0 → calculate_projected_points m r o pm a
        = (0.6 * m + 0.4 * r + (o - m) * 0.25) * 1)
    ∧ calculate_projected_points m r o pm a
        = (0.6 * m + 0.4 * r + (o - m) * 0.25) * (if 0 < a then pm / a else 1) := by
  constructor
  · intro h
    rw [calculate_projected_points]
    rw [if_neg (not_lt.mpr h)]
  · rfl

/-- C9 witness: at `avgMinutes = 0` the fallback ratio `1` applies and
the projection is returned without error. -/
theorem C9_witness :
    calculate_projected_points 20 22 22 35 0
      = (0.6 * 20 + 0.4 * 22 + (22 - 20) * 0.25) * 1 :=
  (C9_projection_total 20 22 22 35 0).1 (by norm_num)

/-- C4 counterexample: with `stdDev = 0` (which the claim says must fail
with `InvalidVariance`) and `count = 5` (outside `[1000, 20000]`, which
the claim says must fail with `InvalidSampleCount`), the sampler
succeeds and returns a sample sequence — five copies of the mean. -/
theorem C4_counterexample :
    monte_carlo_simulation 10 0 5 (fun _ => 0) = .ok (List.replicate 5 (10:ℝ)) := by
  rw [monte_carlo_simulation, if_neg (by norm_num)]
  norm_num

/-- C4 amended: the sampler performs no validation of its own; the only
failure is numpy's scale error for strictly negative `stdDev`, while
every nonnegative `stdDev` (zero included) and every `count` whatsoever
yield a sample sequence of length `count`. -/
theorem C4_amended (mu sigma : ℝ) (sims : ℕ) (entropy : ℕ → ℝ) :
    (sigma < 0 → monte_carlo_simulation mu sigma sims entropy
        = .error .scaleNegative)
    ∧ (0 ≤ sigma → ∃ samples, monte_carlo_simulation mu sigma sims entropy
        = .ok samples ∧ samples.length = sims) := by
  constructor
  · intro h
    rw [monte_carlo_simulation, if_pos h]
  · intro h
    refine ⟨(List.range sims).map (fun i => mu + sigma * entropy i), ?_, ?_⟩
    · rw [monte_carlo_simulation, if_neg (not_lt.mpr h)]
    · simp

/-- C4 witness: a negative scale raises numpy's error; a zero scale with
an out-of-range count returns a sample sequence of that length. -/
theorem C4_witness :
    monte_carlo_simulation 10 (-1) 5 (fun _ => 0) = .error .scaleNegative
    ∧ ∃ samples, monte_carlo_simulation 10 0 5 (fun _ => 0)
        = .ok samples ∧ samples.length = 5 :=
  ⟨(C4_amended 10 (-1) 5 (fun _ => 0)).1 (by norm_num),
   (C4_amended 10 0 5 (fun _ => 0)).2 (by norm_num)⟩

/-- A concrete pipeline input on which the floor fires: the raw
projection is `17.5` while the floor value is `40` (opponent allowed 40
at floor percentage 100); `games_played = none` keeps the posterior at
the prior `(10, 1)`. -/
noncomputable def inpC1 : PlayerInputs where
  mean_points := 10
  std_dev_points := 1
  games_played := none
  recent_avg_points := 10
  recent_games := 0
  opp_points_allowed_position := 40
  projected_minutes := 30
  avg_minutes := 30
  floor_percentage := 100
  line := 20.5
  odds := -110
  simulations := 1000

/-- C1 counterexample: on `inpC1` with the zero entropy stream every
Monte Carlo sample equals `17.5`, the raw projection, while the floored
projection is `40`: the sample set is drawn with the raw projection as
mean, not the floored one (line 145 runs before the floor adjustment of
line 147). -/
theorem C1_counterexample :
    (run_pipeline inpC1 (fun _ => 0)).toOption.map PipelineResult.simulated_points
        = some (List.replicate 1000 (17.5 : ℝ))
    ∧ (run_pipeline inpC1 (fun _ => 0)).toOption.map PipelineResult.final_points
        = some 40
    ∧ (17.5 : ℝ) ≠ 40 := by
  have hb : bayesian_update inpC1.mean_points inpC1.std_dev_points
      inpC1.recent_avg_points inpC1.recent_games inpC1.games_played = (10, 1) := by
    simp [inpC1, bayesian_update]
  have h : 0 ≤ (bayesian_update inpC1.mean_points inpC1.std_dev_points
      inpC1.recent_avg_points inpC1.recent_games inpC1.games_played).2 := by
    rw [hb]; norm_num
  have hp : calculate_projected_points inpC1.mean_points inpC1.recent_avg_points
      inpC1.opp_points_allowed_position inpC1.projected_minutes inpC1.avg_minutes
      = 17.5 := by
    show calculate_projected_points 10 10 40 30 30 = 17.5
    norm_num [calculate_projected_points]
  rw [run_pipeline_eq inpC1 (fun _ => 0) h]
  simp only [hb, hp]
  refine ⟨?_, ?_, by norm_num⟩
  · simp [Except.toOption, inpC1, List.map_const', List.length_range]
  · norm_num [Except.toOption, inpC1, apply_floor_adjustment, max_def]

/-- C1 amended: the Monte Carlo sample set of a (successful) pipeline run
is drawn from the Normal distribution whose mean is the RAW projection
(the `calculate_projected_points` output) and whose standard deviation is
the posterior standard deviation; the floor adjustment happens after
sampling and does not feed the sampler. -/
theorem C1_amended (inp : PlayerInputs) (entropy : ℕ → ℝ)
    (h : 0 ≤ (bayesian_update inp.mean_points inp.std_dev_points
      inp.recent_avg_points inp.recent_games inp.games_played).2) :
    (run_pipeline inp entropy).toOption.map PipelineResult.simulated_points
      = some ((List.range inp.simulations).map fun i =>
          calculate_projected_points inp.mean_points inp.recent_avg_points
            inp.opp_points_allowed_position inp.projected_minutes inp.avg_minutes
          + (bayesian_update inp.mean_points inp.std_dev_points
              inp.recent_avg_points inp.recent_games inp.games_played).2
            * entropy i) := by
  rw [run_pipeline_eq inp entropy h]
  rfl

/-- C1 witness: concrete instance of the amended claim on `inpC1`. -/
theorem C1_amended_witness :
    (run_pipeline inpC1 (fun _ => 0)).toOption.map PipelineResult.simulated_points
      = some ((List.range inpC1.simulations).map fun i =>
          calculate_projected_points inpC1.mean_points inpC1.recent_avg_points
            inpC1.opp_points_allowed_position inpC1.projected_minutes inpC1.avg_minutes
          + (bayesian_update inpC1.mean_points inpC1.std_dev_points
              inpC1.recent_avg_points inpC1.recent_games inpC1.games_played).2 * 0) :=
  C1_amended inpC1 (fun _ => 0) (by norm_num [inpC1, bayesian_update])

/-- C10: two pipeline runs with identical inputs and identical random
draws that differ only in `floorPercentage` produce identical
`probabilityOver`, `expectedValue`, `edgePercentage` and recommendation:
the floor percentage never reaches the betting analysis. -/
theorem C10_floor_noninterference (inp : PlayerInputs) (p1 p2 : ℝ)
    (entropy : ℕ → ℝ) :
    (run_pipeline { inp with floor_percentage := p1 } entropy).toOption.map
        (fun r => (r.prob_over, r.ev, r.edge_pct, r.bet_recommendation))
      = (run_pipeline { inp with floor_percentage := p2 } entropy).toOption.map
        (fun r => (r.prob_over, r.ev, r.edge_pct, r.bet_recommendation)) := by
  dsimp only [run_pipeline]
  cases monte_carlo_simulation (calculate_projected_points inp.mean_points
      inp.recent_avg_points inp.opp_points_allowed_position inp.projected_minutes
      inp.avg_minutes) (bayesian_update inp.mean_points inp.std_dev_points
      inp.recent_avg_points inp.recent_games inp.games_played).2
      inp.simulations entropy with
  | error e => rfl
  | ok simulated_points => rfl
